import Mathlib

/-!
Verification of the canonical/tenant-service core: the lazy request-scoped
database transaction (`internal/db`), the transaction boundary middleware,
the authorization tuple cascade (`internal/authorization`), the tenant
domain service (`pkg/tenant/service.go`) and the relational storage layer
(`internal/storage/storage.go`), shallowly embedded in Lean.

Errors are modelled as `String` (Go `error` values); external effects
(BeginTx, Commit, the tuple store, the identity directory) are modelled by
explicit oracles passed as parameters, and the sequence of operations the
code issues is returned as an explicit trace.
-/

namespace TenantService

/-- An operation issued against the underlying `*sql.DB` transaction
machinery: a `BeginTx` attempt (with its outcome), a `Commit` attempt
(with its outcome), or a `Rollback`. -/
inductive TxEvent where
  | beginAttempt (ok : Bool)
  | commitAttempt (ok : Bool)
  | rollback
deriving DecidableEq, Repr

/-- The state of the `lazyTx` holder from `internal/db`: whether the
underlying transaction has been created (`tx != nil`) and whether it has
been committed. -/
structure LazyTxState where
  started : Bool
  committed : Bool
deriving DecidableEq, Repr

/-- Model of `lazyTx.get`: returns the cached transaction if present, otherwise
attempts `BeginTx` (outcome given by the oracle `beginOk`). Returns the
new holder state, the events issued, and whether a transaction handle was
obtained. -/
def lazyGet (beginOk : Bool) (s : LazyTxState) : LazyTxState × List TxEvent × Bool :=
  if s.started then (s, [], true)
  else if beginOk then ({ s with started := true }, [TxEvent.beginAttempt true], true)
  else (s, [TxEvent.beginAttempt false], false)

/-- Runs `n` database touches by `fn` through the lazy holder: each touch
calls `lazyTx.get` (as `DBClient.Statement` does when a lazy holder is in
the context). -/
def runTouches (beginOk : Bool) : Nat → LazyTxState → LazyTxState × List TxEvent
  | 0, s => (s, [])
  | Nat.succ n, s =>
    let r := lazyGet beginOk s
    let r2 := runTouches beginOk n r.1
    (r2.1, r.2.1 ++ r2.2)

/-- Model of `DBClient.WithTx`: installs a fresh lazy holder, runs `fn`
(characterised by how many times it touches the database and the error it
returns), then: on error from `fn`, returns it unchanged and the deferred
cleanup rolls back iff the transaction was started; on success, commits
iff started (a failed commit returns a wrapped error and the deferred
cleanup then rolls back, since `committed` stayed false).

`withTxRun` is the epilogue shared with the middleware model: given the
holder state and events after `fn` ran, it applies `WithTx`'s
return/commit/deferred-rollback logic. -/
def withTxRun (commitOk : Bool) (s : LazyTxState) (es : List TxEvent)
    (fnErr : Option String) : List TxEvent × Option String :=
  match fnErr with
  | some e => (es ++ (if s.started then [TxEvent.rollback] else []), some e)
  | none =>
    if s.started then
      if commitOk then (es ++ [TxEvent.commitAttempt true], none)
      else (es ++ [TxEvent.commitAttempt false, TxEvent.rollback],
            some "failed to commit transaction")
    else (es, none)

def withTx (beginOk commitOk : Bool) (touches : Nat) (fnErr : Option String) :
    List TxEvent × Option String :=
  let r := runTouches beginOk touches { started := false, committed := false }
  withTxRun commitOk r.1 r.2 fnErr

/-- Number of `Rollback` operations in a trace. -/
def rollbackCount (es : List TxEvent) : Nat :=
  (es.filter (· = TxEvent.rollback)).length

/-- Number of `Commit` attempts in a trace. -/
def commitAttemptCount (es : List TxEvent) : Nat :=
  (es.filter (fun e => match e with | TxEvent.commitAttempt _ => true | _ => false)).length

/-- Whether `WithTx`'s lazy transaction ends up started: `fn` touched the
database at least once and `BeginTx` succeeded. -/
def txStarted (beginOk : Bool) (touches : Nat) : Bool :=
  beginOk && decide (0 < touches)

theorem rollbackCount_append (a b : List TxEvent) :
    rollbackCount (a ++ b) = rollbackCount a + rollbackCount b := by
  simp [rollbackCount, List.filter_append]

theorem commitAttemptCount_append (a b : List TxEvent) :
    commitAttemptCount (a ++ b) = commitAttemptCount a + commitAttemptCount b := by
  simp [commitAttemptCount, List.filter_append]

theorem runTouches_events (beginOk : Bool) :
    ∀ (n : Nat) (s : LazyTxState),
      ∀ e ∈ (runTouches beginOk n s).2, ∃ ok, e = TxEvent.beginAttempt ok := by
  intro n
  induction n with
  | zero => intro s e he; simp [runTouches] at he
  | succ n ih =>
    intro s e he
    simp only [runTouches, List.mem_append] at he
    rcases he with he | he
    · unfold lazyGet at he
      by_cases hs : s.started
      · simp [hs] at he
      · by_cases hb : beginOk
        · simp [hs, hb] at he
          exact ⟨true, he⟩
        · simp [hs, hb] at he
          exact ⟨false, he⟩
    · exact ih _ e he

theorem rollbackCount_runTouches (beginOk : Bool) (n : Nat) (s : LazyTxState) :
    rollbackCount (runTouches beginOk n s).2 = 0 := by
  rw [rollbackCount, List.length_eq_zero, List.filter_eq_nil_iff]
  intro e he
  obtain ⟨ok, rfl⟩ := runTouches_events beginOk n s e he
  simp

theorem commitAttemptCount_runTouches (beginOk : Bool) (n : Nat) (s : LazyTxState) :
    commitAttemptCount (runTouches beginOk n s).2 = 0 := by
  rw [commitAttemptCount, List.length_eq_zero, List.filter_eq_nil_iff]
  intro e he
  obtain ⟨ok, rfl⟩ := runTouches_events beginOk n s e he
  simp

theorem runTouches_started (beginOk : Bool) :
    ∀ (n : Nat) (s : LazyTxState),
      (runTouches beginOk n s).1.started = (s.started || (beginOk && decide (0 < n))) := by
  intro n
  induction n with
  | zero => intro s; simp [runTouches]
  | succ n ih =>
    intro s
    simp only [runTouches]
    rw [ih]
    unfold lazyGet
    by_cases hs : s.started
    · simp [hs]
    · by_cases hb : beginOk <;> simp [hs, hb]

theorem rollbackCount_touches_append (beginOk : Bool) (n : Nat) (s : LazyTxState)
    (tail : List TxEvent) :
    rollbackCount ((runTouches beginOk n s).2 ++ tail) = rollbackCount tail := by
  rw [rollbackCount_append, rollbackCount_runTouches, Nat.zero_add]

theorem commitAttemptCount_touches_append (beginOk : Bool) (n : Nat) (s : LazyTxState)
    (tail : List TxEvent) :
    commitAttemptCount ((runTouches beginOk n s).2 ++ tail) = commitAttemptCount tail := by
  rw [commitAttemptCount_append, commitAttemptCount_runTouches, Nat.zero_add]

theorem withTx_started (beginOk : Bool) (touches : Nat) :
    (runTouches beginOk touches { started := false, committed := false }).1.started
      = txStarted beginOk touches := by
  rw [runTouches_started, txStarted]
  simp

/-- C1: for every call `WithTx(ctx, fn)`: if `fn` returns an error, the
transaction is rolled back exactly when it was started (one rollback if
started, none otherwise, and no commit), and `WithTx` returns `fn`'s
error unchanged; if `fn` returns nil (and the commit does not itself
fail), the transaction is committed exactly when it was started, with no
rollback; and if `fn` never touched the database, `WithTx` performs
neither commit nor rollback and returns `fn`'s result (nil on success). -/
theorem withTx_contract (beginOk commitOk : Bool) (touches : Nat) (fnErr : Option String) :
    (∀ e, fnErr = some e →
      (withTx beginOk commitOk touches fnErr).2 = some e ∧
      rollbackCount (withTx beginOk commitOk touches fnErr).1
        = (if txStarted beginOk touches then 1 else 0) ∧
      commitAttemptCount (withTx beginOk commitOk touches fnErr).1 = 0) ∧
    (fnErr = none → commitOk = true →
      (withTx beginOk commitOk touches fnErr).2 = none ∧
      commitAttemptCount (withTx beginOk commitOk touches fnErr).1
        = (if txStarted beginOk touches then 1 else 0) ∧
      rollbackCount (withTx beginOk commitOk touches fnErr).1 = 0) ∧
    (touches = 0 →
      commitAttemptCount (withTx beginOk commitOk touches fnErr).1 = 0 ∧
      rollbackCount (withTx beginOk commitOk touches fnErr).1 = 0 ∧
      (withTx beginOk commitOk touches fnErr).2 = fnErr) := by
  have hst := withTx_started beginOk touches
  refine ⟨?_, ?_, ?_⟩
  · intro e he
    subst he
    simp only [withTx, withTxRun]
    rw [hst]
    by_cases h : txStarted beginOk touches
    · simp only [h, if_true]
      exact ⟨trivial, by rw [rollbackCount_touches_append]; rfl,
        by rw [commitAttemptCount_touches_append]; rfl⟩
    · simp only [h, Bool.false_eq_true, if_false, List.append_nil]
      exact ⟨trivial, rollbackCount_runTouches _ _ _, commitAttemptCount_runTouches _ _ _⟩
  · intro he hc
    subst he hc
    simp only [withTx, withTxRun]
    rw [hst]
    by_cases h : txStarted beginOk touches
    · simp only [h, if_true]
      exact ⟨trivial, by rw [commitAttemptCount_touches_append]; rfl,
        by rw [rollbackCount_touches_append]; rfl⟩
    · simp only [h, Bool.false_eq_true, if_false]
      exact ⟨trivial, commitAttemptCount_runTouches _ _ _, rollbackCount_runTouches _ _ _⟩
  · intro ht
    subst ht
    have hst0 : txStarted beginOk 0 = false := by simp [txStarted]
    cases fnErr with
    | some e =>
      simp only [withTx, withTxRun]
      rw [hst, hst0]
      simp only [Bool.false_eq_true, if_false, List.append_nil]
      exact ⟨commitAttemptCount_runTouches _ _ _, rollbackCount_runTouches _ _ _, trivial⟩
    | none =>
      simp only [withTx, withTxRun]
      rw [hst, hst0]
      simp only [Bool.false_eq_true, if_false]
      exact ⟨commitAttemptCount_runTouches _ _ _, rollbackCount_runTouches _ _ _, trivial⟩

/-- C1 witness: `fn` touching the database once and failing, with a
working `BeginTx`: the error comes back unchanged, with exactly one
rollback and no commit. -/
theorem withTx_contract_witness :
    (withTx true true 1 (some "boom")).2 = some "boom" ∧
    rollbackCount (withTx true true 1 (some "boom")).1
      = (if txStarted true 1 then 1 else 0) ∧
    commitAttemptCount (withTx true true 1 (some "boom")).1 = 0 :=
  (withTx_contract true true 1 (some "boom")).1 "boom" rfl

/-- Which runner a built statement executes against: the lazily created
transaction, a pre-bound context transaction, or the shared pool. -/
inductive Runner where
  | lazyTransaction
  | boundTransaction
  | pool
deriving DecidableEq, Repr

/-- The request context as `DBClient.Statement` sees it: whether a lazy
transaction holder is attached, and whether a pre-bound transaction is
attached. -/
structure Ctx where
  hasLazy : Bool
  hasBoundTx : Bool
deriving DecidableEq, Repr

/-- Model of `DBClient.Statement`: if a lazy holder is in the context, use
its transaction (created on first use); if creation fails, the error is
logged and control falls through to the pre-bound transaction check and
then to the shared pool. Returns the new holder state, the events issued,
and the runner the statement is bound to. -/
def statement (beginOk : Bool) (ctx : Ctx) (s : LazyTxState) :
    LazyTxState × List TxEvent × Runner :=
  if ctx.hasLazy then
    let r := lazyGet beginOk s
    if r.2.2 then (r.1, r.2.1, Runner.lazyTransaction)
    else if ctx.hasBoundTx then (r.1, r.2.1, Runner.boundTransaction)
    else (r.1, r.2.1, Runner.pool)
  else if ctx.hasBoundTx then (s, [], Runner.boundTransaction)
  else (s, [], Runner.pool)

/-- Runs a handler that builds `n` statements through `DBClient.Statement`
in the given context, threading the lazy holder state and collecting the
runner used by each statement. -/
def runQueries (beginOk : Bool) (ctx : Ctx) :
    Nat → LazyTxState → LazyTxState × List TxEvent × List Runner
  | 0, s => (s, [], [])
  | Nat.succ n, s =>
    let r := statement beginOk ctx s
    let rest := runQueries beginOk ctx n r.1
    (rest.1, r.2.1 ++ rest.2.1, r.2.2 :: rest.2.2)

/-- The observable outcome of one request through `TransactionMiddleware`:
whether a lazy holder was installed, the transaction events issued, the
runner used by each of the handler's statements, and the error `WithTx`
returned (which the middleware discards). -/
structure RequestResult where
  holderInstalled : Bool
  events : List TxEvent
  runners : List Runner
  wtxErr : Option String
deriving DecidableEq, Repr

/-- Model of `TransactionMiddleware`: GET/HEAD requests run the handler
directly (no lazy holder); all other methods run the handler inside
`WithTx` with a status-observing response writer, returning an error to
`WithTx` iff the recorded status is >= 400. The handler is characterised
by how many statements it builds (`queries`) and the final recorded
response status (200 if it never calls WriteHeader). -/
def transactionMiddleware (beginOk commitOk : Bool) (method : String)
    (queries : Nat) (status : Nat) : RequestResult :=
  if method = "GET" ∨ method = "HEAD" then
    let r := runQueries beginOk { hasLazy := false, hasBoundTx := false } queries
      { started := false, committed := false }
    { holderInstalled := false, events := r.2.1, runners := r.2.2, wtxErr := none }
  else
    let r := runQueries beginOk { hasLazy := true, hasBoundTx := false } queries
      { started := false, committed := false }
    let w := withTxRun commitOk r.1 r.2.1
      (if 400 ≤ status then some ("request failed with status " ++ toString status)
       else none)
    { holderInstalled := true, events := w.1, runners := r.2.2, wtxErr := w.2 }

theorem runQueries_plain (beginOk : Bool) :
    ∀ (n : Nat) (s : LazyTxState),
      runQueries beginOk { hasLazy := false, hasBoundTx := false } n s
        = (s, [], List.replicate n Runner.pool) := by
  intro n
  induction n with
  | zero => intro s; simp [runQueries]
  | succ n ih =>
    intro s
    simp [runQueries, statement, ih, List.replicate]

theorem runQueries_lazy_state (beginOk : Bool) :
    ∀ (n : Nat) (s : LazyTxState),
      (runQueries beginOk { hasLazy := true, hasBoundTx := false } n s).1
          = (runTouches beginOk n s).1 ∧
        (runQueries beginOk { hasLazy := true, hasBoundTx := false } n s).2.1
          = (runTouches beginOk n s).2 := by
  intro n
  induction n with
  | zero => intro s; simp [runQueries, runTouches]
  | succ n ih =>
    intro s
    have hstep :
        (statement beginOk { hasLazy := true, hasBoundTx := false } s).1
            = (lazyGet beginOk s).1 ∧
          (statement beginOk { hasLazy := true, hasBoundTx := false } s).2.1
            = (lazyGet beginOk s).2.1 := by
      unfold statement
      by_cases h : (lazyGet beginOk s).2.2 <;> simp [h]
    simp only [runQueries, runTouches]
    rw [hstep.1, hstep.2]
    exact ⟨(ih _).1, by rw [(ih _).2]⟩

/-- C2: for every mutating (non-GET/HEAD) request, the middleware decides
commit versus rollback exactly once after the handler returns: if the
recorded status is >= 400, no commit is attempted and any started
transaction is rolled back exactly once; if the recorded status is < 400
(and the commit itself does not fail), any started transaction is
committed exactly once and never rolled back. -/
theorem transactionMiddleware_mutating_contract (beginOk commitOk : Bool)
    (method : String) (queries : Nat) (status : Nat)
    (hm : ¬(method = "GET" ∨ method = "HEAD")) :
    (400 ≤ status →
      commitAttemptCount (transactionMiddleware beginOk commitOk method queries status).events
        = 0 ∧
      rollbackCount (transactionMiddleware beginOk commitOk method queries status).events
        = (if txStarted beginOk queries then 1 else 0)) ∧
    (status < 400 → commitOk = true →
      commitAttemptCount (transactionMiddleware beginOk commitOk method queries status).events
        = (if txStarted beginOk queries then 1 else 0) ∧
      rollbackCount (transactionMiddleware beginOk commitOk method queries status).events
        = 0) := by
  have hq := runQueries_lazy_state beginOk queries { started := false, committed := false }
  have hst := withTx_started beginOk queries
  constructor
  · intro h4
    have hif : (if 400 ≤ status then
        some ("request failed with status " ++ toString status) else none)
        = some ("request failed with status " ++ toString status) := by
      rw [if_pos h4]
    simp only [transactionMiddleware, if_neg hm]
    rw [hif]
    simp only [withTxRun]
    rw [hq.1, hq.2, hst]
    by_cases h : txStarted beginOk queries
    · simp only [h, if_true]
      exact ⟨by rw [commitAttemptCount_touches_append]; rfl,
        by rw [rollbackCount_touches_append]; rfl⟩
    · simp only [h, Bool.false_eq_true, if_false, List.append_nil]
      exact ⟨commitAttemptCount_runTouches _ _ _,
        by rw [rollbackCount_runTouches]⟩
  · intro h4 hc
    subst hc
    have hif : (if 400 ≤ status then
        some ("request failed with status " ++ toString status) else none) = none := by
      rw [if_neg (by omega)]
    simp only [transactionMiddleware, if_neg hm]
    rw [hif]
    simp only [withTxRun]
    rw [hq.1, hq.2, hst]
    by_cases h : txStarted beginOk queries
    · simp only [h, if_true]
      exact ⟨by rw [commitAttemptCount_touches_append]; rfl,
        by rw [rollbackCount_touches_append]; rfl⟩
    · simp only [h, Bool.false_eq_true, if_false]
      exact ⟨commitAttemptCount_runTouches _ _ _,
        rollbackCount_runTouches _ _ _⟩

/-- C2 witness: a POST whose handler touched the database once and set
status 500 gets no commit and exactly one rollback. -/
theorem transactionMiddleware_mutating_contract_witness :
    commitAttemptCount (transactionMiddleware true true "POST" 1 500).events = 0 ∧
    rollbackCount (transactionMiddleware true true "POST" 1 500).events
      = (if txStarted true 1 then 1 else 0) :=
  (transactionMiddleware_mutating_contract true true "POST" 1 500
    (by simp)).1 (by omega)

/-- C3: for GET and HEAD requests the middleware installs no lazy holder,
no transaction event (in particular no BeginTx) is ever issued, and every
statement the handler builds runs against the shared pool. -/
theorem transactionMiddleware_readonly_contract (beginOk commitOk : Bool)
    (method : String) (queries : Nat) (status : Nat)
    (hm : method = "GET" ∨ method = "HEAD") :
    (transactionMiddleware beginOk commitOk method queries status).holderInstalled = false ∧
    (transactionMiddleware beginOk commitOk method queries status).events = [] ∧
    (transactionMiddleware beginOk commitOk method queries status).runners
      = List.replicate queries Runner.pool := by
  simp [transactionMiddleware, if_pos hm, runQueries_plain]

/-- C3 witness: a GET whose handler builds two statements, both of which
run against the pool, with no transaction event. -/
theorem transactionMiddleware_readonly_contract_witness :
    (transactionMiddleware true true "GET" 2 200).holderInstalled = false ∧
    (transactionMiddleware true true "GET" 2 200).events = [] ∧
    (transactionMiddleware true true "GET" 2 200).runners
      = List.replicate 2 Runner.pool :=
  transactionMiddleware_readonly_contract true true "GET" 2 200 (Or.inl rfl)

/-- C4 counterexample: with a lazy holder in the context and transaction
creation failing, `DBClient.Statement` does NOT propagate the error; it
executes the statement against the shared pool on another connection
(the code logs the error and falls back), refuting the claim that the
statement is never executed outside a transaction. -/
theorem statement_beginFailure_counterexample :
    (statement false { hasLazy := true, hasBoundTx := false }
        { started := false, committed := false }).2.2 = Runner.pool ∧
    ¬(∀ (ctx : Ctx) (s : LazyTxState), ctx.hasLazy = true → s.started = false →
        (statement false ctx s).2.2 ≠ Runner.pool) := by
  refine ⟨rfl, fun h => ?_⟩
  exact h { hasLazy := true, hasBoundTx := false }
    { started := false, committed := false } rfl rfl rfl

/-- C4 amended: if transaction creation fails for a statement built in a
context carrying a (not yet started) lazy holder, the error is logged and
the statement falls back to the pre-bound transaction if one is in the
context, else to the shared pool; the holder stays unstarted and no error
is propagated (Statement returns a builder unconditionally). -/
theorem statement_beginFailure_fallback (ctx : Ctx) (s : LazyTxState)
    (hl : ctx.hasLazy = true) (hs : s.started = false) :
    (statement false ctx s).2.2
        = (if ctx.hasBoundTx then Runner.boundTransaction else Runner.pool) ∧
    (statement false ctx s).1.started = false ∧
    (statement false ctx s).2.1 = [TxEvent.beginAttempt false] := by
  unfold statement lazyGet
  simp only [hl, hs, if_true, Bool.false_eq_true, if_false]
  by_cases hb : ctx.hasBoundTx <;> simp [hb, hs]

/-- C4 amended witness: no bound transaction in the context, so the failed
lazy creation falls back to the shared pool. -/
theorem statement_beginFailure_fallback_witness :
    (statement false { hasLazy := true, hasBoundTx := false }
        { started := false, committed := false }).2.2
      = (if ({ hasLazy := true, hasBoundTx := false } : Ctx).hasBoundTx
         then Runner.boundTransaction else Runner.pool) ∧
    (statement false { hasLazy := true, hasBoundTx := false }
        { started := false, committed := false }).1.started = false ∧
    (statement false { hasLazy := true, hasBoundTx := false }
        { started := false, committed := false }).2.1 = [TxEvent.beginAttempt false] :=
  statement_beginFailure_fallback { hasLazy := true, hasBoundTx := false }
    { started := false, committed := false } rfl rfl

/-- A relation tuple (user, relation, object) of the authorization store. -/
structure Tuple where
  user : String
  relation : String
  obj : String
deriving DecidableEq, Repr

/-- One response of `ReadTuples`: a page of tuples and a continuation
token. -/
structure ReadResult where
  tuples : List Tuple
  continuationToken : String
deriving DecidableEq, Repr

/-- The observable outcome of `Authorizer.DeleteTenant`: how many
`ReadTuples` calls were issued, the batches passed to `DeleteTuples` (in
order), and the returned error. -/
structure CascadeResult where
  reads : Nat
  batches : List (List Tuple)
  error : Option String
deriving DecidableEq, Repr

/-- Model of `Authorizer.DeleteTenant`: the tuple store is abstracted as
the stream of responses its successive `ReadTuples` calls will return
(the continuation tokens the code passes back select these responses),
and `DeleteTuples` as an oracle `del` on the batch. The loop: read; on
read error, return it; if the page is empty, stop cleanly; otherwise
delete exactly that page (on delete error, return it); if the returned
token is empty, stop; else continue with the next response. The theorems
only consume streams long enough for the run, so the empty-stream case is
never reached under their hypotheses. -/
def deleteTenantCascade (del : List Tuple → Option String) :
    List (Except String ReadResult) → CascadeResult
  | [] => { reads := 0, batches := [], error := none }
  | resp :: rest =>
    match resp with
    | Except.error e => { reads := 1, batches := [], error := some e }
    | Except.ok r =>
      if r.tuples = [] then { reads := 1, batches := [], error := none }
      else
        match del r.tuples with
        | some e => { reads := 1, batches := [r.tuples], error := some e }
        | none =>
          if r.continuationToken = "" then
            { reads := 1, batches := [r.tuples], error := none }
          else
            let c := deleteTenantCascade del rest
            { reads := 1 + c.reads, batches := r.tuples :: c.batches, error := c.error }

/-- C5: the cascading tenant deletion reads one page at a time: an empty
page stops cleanly with no error after a single read (idempotent re-run);
three non-empty pages with tokens "t1", "t2", "" yield exactly 3 reads
and exactly those 3 delete batches with no error; a read error aborts the
cascade and is returned; a delete error aborts the cascade after that
single batch and is returned. -/
theorem deleteTenantCascade_contract :
    (∀ (del : List Tuple → Option String) (t : String)
        (rest : List (Except String ReadResult)),
      deleteTenantCascade del (Except.ok { tuples := [], continuationToken := t } :: rest)
        = { reads := 1, batches := [], error := none }) ∧
    (∀ (del : List Tuple → Option String) (p1 p2 p3 : List Tuple)
        (rest : List (Except String ReadResult)),
      p1 ≠ [] → p2 ≠ [] → p3 ≠ [] →
      del p1 = none → del p2 = none → del p3 = none →
      deleteTenantCascade del
          (Except.ok { tuples := p1, continuationToken := "t1" }
            :: Except.ok { tuples := p2, continuationToken := "t2" }
            :: Except.ok { tuples := p3, continuationToken := "" } :: rest)
        = { reads := 3, batches := [p1, p2, p3], error := none }) ∧
    (∀ (del : List Tuple → Option String) (e : String)
        (rest : List (Except String ReadResult)),
      deleteTenantCascade del (Except.error e :: rest)
        = { reads := 1, batches := [], error := some e }) ∧
    (∀ (del : List Tuple → Option String) (p : List Tuple) (t e : String)
        (rest : List (Except String ReadResult)),
      p ≠ [] → del p = some e →
      deleteTenantCascade del (Except.ok { tuples := p, continuationToken := t } :: rest)
        = { reads := 1, batches := [p], error := some e }) := by
  have ht1 : ¬("t1" : String) = "" := by decide
  have ht2 : ¬("t2" : String) = "" := by decide
  refine ⟨?_, ?_, ?_, ?_⟩
  · intro del t rest
    simp [deleteTenantCascade]
  · intro del p1 p2 p3 rest hp1 hp2 hp3 hd1 hd2 hd3
    simp only [deleteTenantCascade, if_neg hp1, if_neg hp2, if_neg hp3,
      hd1, hd2, hd3, if_neg ht1, if_neg ht2]
    simp
  · intro del e rest
    simp [deleteTenantCascade]
  · intro del p t e rest hp hd
    simp only [deleteTenantCascade, if_neg hp, hd]

/-- C5 witness: a single-tuple page per read, three pages with tokens
"t1", "t2", "": exactly 3 reads and 3 delete batches, no error. -/
theorem deleteTenantCascade_contract_witness :
    deleteTenantCascade (fun _ => none)
        (Except.ok { tuples := [{ user := "user:u", relation := "owner",
                                  obj := "tenant:x" }], continuationToken := "t1" }
          :: Except.ok { tuples := [{ user := "user:v", relation := "member",
                                      obj := "tenant:x" }], continuationToken := "t2" }
          :: Except.ok { tuples := [{ user := "user:w", relation := "member",
                                      obj := "tenant:x" }], continuationToken := "" } :: [])
      = { reads := 3,
          batches := [[{ user := "user:u", relation := "owner", obj := "tenant:x" }],
                      [{ user := "user:v", relation := "member", obj := "tenant:x" }],
                      [{ user := "user:w", relation := "member", obj := "tenant:x" }]],
          error := none } :=
  deleteTenantCascade_contract.2.1 (fun _ => none) _ _ _ []
    (by decide) (by decide) (by decide) rfl rfl rfl

/-- An authorization mutation the service attempts through the
Authorizer. -/
inductive AuthzOp where
  | assignOwner
  | assignMember
  | removeOwner
  | removeMember
deriving DecidableEq, Repr

/-- Outcomes of the four Authorizer mutations, as the external tuple
store would answer them. -/
structure AuthzOracle where
  assignOwnerErr : Option String
  assignMemberErr : Option String
  removeOwnerErr : Option String
  removeMemberErr : Option String

/-- The relations the subject holds on the tenant in the tuple store. -/
structure RelState where
  hasOwner : Bool
  hasMember : Bool
deriving DecidableEq, Repr

/-- Applies one attempted authorization op (with its success flag) to the
subject's relation state; a failed op changes nothing. -/
def applyOp (s : RelState) : AuthzOp × Bool → RelState
  | (op, ok) =>
    if ok then
      match op with
      | AuthzOp.assignOwner => { s with hasOwner := true }
      | AuthzOp.assignMember => { s with hasMember := true }
      | AuthzOp.removeOwner => { s with hasOwner := false }
      | AuthzOp.removeMember => { s with hasMember := false }
    else s

/-- The relation state of a subject holding exactly the relation mapped
from the given stored role (owner stays owner; member and admin both map
to the member relation, as the service's switch does). -/
def relStateFor (role : String) : RelState :=
  if role = "owner" then { hasOwner := true, hasMember := false }
  else { hasOwner := false, hasMember := true }

/-- Looks up the relation a role maps to in a relation state. -/
def relOfRole (role : String) (s : RelState) : Bool :=
  if role = "owner" then s.hasOwner else s.hasMember

def isRemove : AuthzOp → Bool
  | AuthzOp.removeOwner => true
  | AuthzOp.removeMember => true
  | _ => false

/-- The subject holds at least one relation to the tenant. -/
def nonEmptyRel (s : RelState) : Bool :=
  s.hasOwner || s.hasMember

/-- Checks that every state reached while applying the trace (the initial
state included) has at least one relation. -/
def statesNonempty : RelState → List (AuthzOp × Bool) → Bool
  | s, [] => nonEmptyRel s
  | s, op :: rest => nonEmptyRel s && statesNonempty (applyOp s op) rest

/-- Checks that at the point of every remove op in the trace the subject
still holds both the new role's relation and the old role's relation. -/
def removesSeeBoth (newRole curRole : String) : RelState → List (AuthzOp × Bool) → Bool
  | _, [] => true
  | s, (op, ok) :: rest =>
    (if isRemove op then relOfRole newRole s && relOfRole curRole s else true)
      && removesSeeBoth newRole curRole (applyOp s (op, ok)) rest

/-- The error of the Authorizer call assigning the given role ("owner"
uses AssignTenantOwner, anything else AssignTenantMember). -/
def assignErrFor (role : String) (o : AuthzOracle) : Option String :=
  if role = "owner" then o.assignOwnerErr else o.assignMemberErr

/-- The remove step of `Service.UpdateTenantUser`: switch on the current
role; an owner's old relation is always removed; a member's or admin's
member relation is removed only when promoting to owner; remove failures
are logged and execution continues. -/
def removeOldRole (cur role : String) (o : AuthzOracle) : List (AuthzOp × Bool) :=
  if cur = "owner" then [(AuthzOp.removeOwner, o.removeOwnerErr.isNone)]
  else if cur = "member" ∨ cur = "admin" then
    if role = "owner" then [(AuthzOp.removeMember, o.removeMemberErr.isNone)]
    else []
  else []

/-- Model of `Service.UpdateTenantUser` after the membership lookup:
`currentRole` is the found member's role (`none` when the user is not a
member). Returns the attempted authorization ops in order with their
success flags, whether the relational `UpdateMember` executed, and the
returned error. The new role's tuple is written first; the old role's
removal failures are logged, not returned; the relational update runs
last and its error is returned as-is. -/
def updateTenantUser (currentRole : Option String) (role : String)
    (o : AuthzOracle) (umErr : Option String) :
    List (AuthzOp × Bool) × Bool × Option String :=
  match currentRole with
  | none => ([], false, some "user not found in tenant")
  | some cur =>
    if cur = role then ([], false, none)
    else if role = "owner" then
      match o.assignOwnerErr with
      | some e => ([(AuthzOp.assignOwner, false)], false,
          some ("failed to assign owner role: " ++ e))
      | none =>
        ((AuthzOp.assignOwner, true) :: removeOldRole cur role o, true, umErr)
    else if role = "member" ∨ role = "admin" then
      match o.assignMemberErr with
      | some e => ([(AuthzOp.assignMember, false)], false,
          some ("failed to assign member role: " ++ e))
      | none =>
        ((AuthzOp.assignMember, true) :: removeOldRole cur role o, true, umErr)
    else ([], false, some ("invalid role: " ++ role))

/-- C6: on a role change (valid roles, new role different from current),
starting from the subject holding the old role's relation: every removal
in the attempted-op trace happens at a point where the subject already
holds the new role's relation and still holds the old one (so the new
tuple is written before the old is removed and between the two steps both
are held); at no reachable point does the subject hold neither relation;
and once the new role's assignment succeeded, removal failures do not
affect the returned error (it is exactly the relational update's
result). -/
theorem updateTenantUser_roleChange_contract (cur role : String) (o : AuthzOracle)
    (umErr : Option String)
    (hcur : cur = "owner" ∨ cur = "member" ∨ cur = "admin")
    (hrole : role = "owner" ∨ role = "member" ∨ role = "admin")
    (hne : cur ≠ role) :
    removesSeeBoth role cur (relStateFor cur)
        (updateTenantUser (some cur) role o umErr).1 = true ∧
    statesNonempty (relStateFor cur)
        (updateTenantUser (some cur) role o umErr).1 = true ∧
    (assignErrFor role o = none →
      (updateTenantUser (some cur) role o umErr).2.2 = umErr) := by
  rcases hcur with rfl | rfl | rfl <;> rcases hrole with rfl | rfl | rfl <;>
    first
      | exact absurd rfl hne
      | (cases ho1 : o.assignOwnerErr <;> cases ho2 : o.assignMemberErr <;>
          cases hr1 : o.removeOwnerErr <;> cases hr2 : o.removeMemberErr <;>
          refine ⟨?_, ?_, ?_⟩ <;>
          simp_all [updateTenantUser, removeOldRole, assignErrFor, statesNonempty,
            removesSeeBoth, applyOp, nonEmptyRel, relStateFor, relOfRole, isRemove])

/-- C6 witness: demoting an owner to member with the removal of the old
owner relation failing: the trace still sees both relations at the
removal point, never leaves the subject with no relation, and the result
is the relational update's outcome (success). -/
theorem updateTenantUser_roleChange_contract_witness :
    removesSeeBoth "member" "owner" (relStateFor "owner")
        (updateTenantUser (some "owner") "member"
          { assignOwnerErr := none, assignMemberErr := none,
            removeOwnerErr := some "store down", removeMemberErr := none } none).1 = true ∧
    statesNonempty (relStateFor "owner")
        (updateTenantUser (some "owner") "member"
          { assignOwnerErr := none, assignMemberErr := none,
            removeOwnerErr := some "store down", removeMemberErr := none } none).1 = true ∧
    (updateTenantUser (some "owner") "member"
        { assignOwnerErr := none, assignMemberErr := none,
          removeOwnerErr := some "store down", removeMemberErr := none } none).2.2
      = none :=
  have h := updateTenantUser_roleChange_contract "owner" "member"
    { assignOwnerErr := none, assignMemberErr := none,
      removeOwnerErr := some "store down", removeMemberErr := none } none
    (Or.inl rfl) (Or.inr (Or.inl rfl)) (by decide)
  And.intro h.1 (And.intro h.2.1 (h.2.2 rfl))

/-- C9: calling UpdateTenantUser with the member's current role returns
success immediately: no authorization op is attempted, the relational
update does not run, and no error is returned. -/
theorem updateTenantUser_sameRole_noop (role : String) (o : AuthzOracle)
    (umErr : Option String) :
    updateTenantUser (some role) role o umErr = ([], false, none) := by
  simp [updateTenantUser]

/-- Storage-level error kinds, as classified by the storage layer. -/
inductive StoreErr where
  | duplicateKey
  | other (msg : String)
deriving DecidableEq, Repr

/-- The message a storage error carries (`ErrDuplicateKey` is the
sentinel "duplicate key violation"). -/
def storeErrMsg : StoreErr → String
  | StoreErr.duplicateKey => "duplicate key violation"
  | StoreErr.other m => m

/-- The observable outcome of `Service.InviteMember`: whether the
authorization assignment was attempted, whether a recovery link was
requested, the issued link and code, and the returned error. -/
structure InviteResult where
  assignAttempted : Bool
  recoveryAttempted : Bool
  link : Option (String × String)
  error : Option String
deriving DecidableEq, Repr

/-- The invite steps after the membership row was handled: assign the
relation ("owner" maps to AssignTenantOwner, everything else to
AssignTenantMember), then issue the recovery link. -/
def inviteAfterAdd (role : String) (o : AuthzOracle)
    (recovery : Except String (String × String)) : InviteResult :=
  match assignErrFor role o with
  | some _ =>
    { assignAttempted := true, recoveryAttempted := false, link := none,
      error := some "failed to assign permissions" }
  | none =>
    match recovery with
    | Except.error _ =>
      { assignAttempted := true, recoveryAttempted := true, link := none,
        error := some "failed to generate invitation link" }
    | Except.ok lc =>
      { assignAttempted := true, recoveryAttempted := true, link := some lc,
        error := none }

/-- Model of `Service.InviteMember`: resolve the identity by email
(`lookup` errors or yields an optional identity id; a missing identity is
created via `create`), add the membership row (`addMemberErr`; a
duplicate-key error is not a failure), then assign the relation and issue
the recovery link. -/
def inviteMember (lookup : Except String (Option String))
    (create : Except String String) (addMemberErr : Option StoreErr)
    (role : String) (o : AuthzOracle)
    (recovery : Except String (String × String)) : InviteResult :=
  match lookup with
  | Except.error _ =>
    { assignAttempted := false, recoveryAttempted := false, link := none,
      error := some "failed to check identity" }
  | Except.ok found =>
    match (match found with
           | some id => Except.ok id
           | none => create : Except String String) with
    | Except.error _ =>
      { assignAttempted := false, recoveryAttempted := false, link := none,
        error := some "failed to provision user" }
    | Except.ok _ =>
      match addMemberErr with
      | some StoreErr.duplicateKey => inviteAfterAdd role o recovery
      | some (StoreErr.other _) =>
        { assignAttempted := false, recoveryAttempted := false, link := none,
          error := some "failed to add member" }
      | none => inviteAfterAdd role o recovery

/-- The observable outcome of `Service.ProvisionUser`. -/
structure ProvisionResult where
  assignAttempted : Bool
  error : Option String
deriving DecidableEq, Repr

/-- Model of `Service.ProvisionUser`: resolve or create the identity, add
the membership row (any error, the duplicate-key sentinel included, is
wrapped and returned), then assign the relation by role ("owner" /
"member" or "admin" / otherwise an unknown-role error). -/
def provisionUser (lookup : Except String (Option String))
    (create : Except String String) (addMemberErr : Option StoreErr)
    (role : String) (o : AuthzOracle) : ProvisionResult :=
  match lookup with
  | Except.error e => { assignAttempted := false, error := some e }
  | Except.ok found =>
    match (match found with
           | some id => Except.ok id
           | none => create : Except String String) with
    | Except.error e =>
      { assignAttempted := false, error := some ("failed to create identity: " ++ e) }
    | Except.ok _ =>
      match addMemberErr with
      | some err =>
        { assignAttempted := false,
          error := some ("failed to add member to storage: " ++ storeErrMsg err) }
      | none =>
        if role = "owner" then
          match o.assignOwnerErr with
          | some e =>
            { assignAttempted := true,
              error := some ("failed to assign role in authz: " ++ e) }
          | none => { assignAttempted := true, error := none }
        else if role = "member" ∨ role = "admin" then
          match o.assignMemberErr with
          | some e =>
            { assignAttempted := true,
              error := some ("failed to assign role in authz: " ++ e) }
          | none => { assignAttempted := true, error := none }
        else { assignAttempted := false, error := some ("unknown role: " ++ role) }

/-- C7 counterexample: in the provision flow a duplicate-key error from
adding the membership row is NOT treated as idempotent success: with an
existing identity and everything else healthy, ProvisionUser returns the
wrapped duplicate-key error and never assigns the authorization
relation — refuting the claim that both flows treat it as success. -/
theorem provisionUser_duplicateKey_counterexample :
    (provisionUser (Except.ok (some "identity-456")) (Except.ok "identity-456")
        (some StoreErr.duplicateKey) "member"
        { assignOwnerErr := none, assignMemberErr := none,
          removeOwnerErr := none, removeMemberErr := none }).assignAttempted = false ∧
    (provisionUser (Except.ok (some "identity-456")) (Except.ok "identity-456")
        (some StoreErr.duplicateKey) "member"
        { assignOwnerErr := none, assignMemberErr := none,
          removeOwnerErr := none, removeMemberErr := none }).error
      = some "failed to add member to storage: duplicate key violation" := by
  constructor <;> rfl

/-- C7 amended: in the invite flow a duplicate-key error from adding the
membership row is treated as idempotent success — the flow behaves
exactly as if the row had been added (the relation is assigned and a
recovery link is still issued, succeeding whenever the assignment and
link issuance succeed); in the provision flow the duplicate-key error is
wrapped and returned to the caller and the relation is not assigned. -/
theorem inviteMember_duplicateKey_idempotent (lookup : Except String (Option String))
    (create : Except String String) (role : String) (o : AuthzOracle)
    (recovery : Except String (String × String)) (id lk cd : String)
    (hassign : assignErrFor role o = none) :
    inviteMember lookup create (some StoreErr.duplicateKey) role o recovery
        = inviteMember lookup create none role o recovery ∧
    inviteMember (Except.ok (some id)) create (some StoreErr.duplicateKey) role o
        (Except.ok (lk, cd))
      = { assignAttempted := true, recoveryAttempted := true,
          link := some (lk, cd), error := none } ∧
    provisionUser (Except.ok (some id)) create (some StoreErr.duplicateKey) role o
      = { assignAttempted := false,
          error := some "failed to add member to storage: duplicate key violation" } := by
  refine ⟨?_, ?_, ?_⟩
  · cases lookup with
    | error e => rfl
    | ok found =>
      cases found with
      | some i => rfl
      | none => cases create <;> rfl
  · simp [inviteMember, inviteAfterAdd, hassign]
  · rfl

/-- C7 amended witness: inviting an already-existing member as "member"
with a healthy authorizer and link issuance. -/
theorem inviteMember_duplicateKey_idempotent_witness :
    inviteMember (Except.ok (some "u1")) (Except.ok "u1")
        (some StoreErr.duplicateKey) "member"
        { assignOwnerErr := none, assignMemberErr := none,
          removeOwnerErr := none, removeMemberErr := none } (Except.ok ("link", "code"))
      = inviteMember (Except.ok (some "u1")) (Except.ok "u1") none "member"
        { assignOwnerErr := none, assignMemberErr := none,
          removeOwnerErr := none, removeMemberErr := none }
        (Except.ok ("link", "code")) ∧
    inviteMember (Except.ok (some "u1")) (Except.ok "u1")
        (some StoreErr.duplicateKey) "member"
        { assignOwnerErr := none, assignMemberErr := none,
          removeOwnerErr := none, removeMemberErr := none } (Except.ok ("link", "code"))
      = { assignAttempted := true, recoveryAttempted := true,
          link := some ("link", "code"), error := none } ∧
    provisionUser (Except.ok (some "u1")) (Except.ok "u1")
        (some StoreErr.duplicateKey) "member"
        { assignOwnerErr := none, assignMemberErr := none,
          removeOwnerErr := none, removeMemberErr := none }
      = { assignAttempted := false,
          error := some "failed to add member to storage: duplicate key violation" } :=
  inviteMember_duplicateKey_idempotent (Except.ok (some "u1")) (Except.ok "u1")
    "member"
    { assignOwnerErr := none, assignMemberErr := none,
      removeOwnerErr := none, removeMemberErr := none }
    (Except.ok ("link", "code")) "u1" "link" "code" rfl

/-- Model of `Service.DeleteTenant`: delete the relational row first; on
failure return the wrapped error without running the cascade; on success
run the authorization cascade and log (never return) its error. Returns
the cascade outcome when it ran, and the service result. -/
def serviceDeleteTenant (storageErr : Option String)
    (del : List Tuple → Option String)
    (responses : List (Except String ReadResult)) :
    Option CascadeResult × Option String :=
  match storageErr with
  | some e => (none, some ("failed to delete tenant from storage: " ++ e))
  | none => (some (deleteTenantCascade del responses), none)

/-- C8: the relational delete runs first and is authoritative: if it
fails, its (wrapped) error is returned and the tuple cascade never runs;
if it succeeds, the cascade runs and DeleteTenant returns success even
when the cascade fails (its error is only logged). -/
theorem serviceDeleteTenant_contract (storageErr : Option String)
    (del : List Tuple → Option String)
    (responses : List (Except String ReadResult)) :
    (∀ e, storageErr = some e →
      (serviceDeleteTenant storageErr del responses).1 = none ∧
      (serviceDeleteTenant storageErr del responses).2
        = some ("failed to delete tenant from storage: " ++ e)) ∧
    (storageErr = none →
      (serviceDeleteTenant storageErr del responses).1
          = some (deleteTenantCascade del responses) ∧
      (serviceDeleteTenant storageErr del responses).2 = none) := by
  constructor
  · intro e he
    subst he
    exact ⟨rfl, rfl⟩
  · intro he
    subst he
    exact ⟨rfl, rfl⟩

/-- C8 witness: the relational delete succeeds while the cascade's very
first read fails: the cascade ran, its error is swallowed, and
DeleteTenant still returns success. -/
theorem serviceDeleteTenant_contract_witness :
    (serviceDeleteTenant none (fun _ => none)
        [Except.error "authz down"]).1
      = some (deleteTenantCascade (fun _ => none) [Except.error "authz down"]) ∧
    (serviceDeleteTenant none (fun _ => none) [Except.error "authz down"]).2 = none :=
  (serviceDeleteTenant_contract none (fun _ => none) [Except.error "authz down"]).2 rfl

/-- A row of the `tenants` table. -/
structure TenantRow where
  id : String
  name : String
  createdAt : Nat
  enabled : Bool
deriving DecidableEq, Repr

/-- The SET map built by `Storage.UpdateTenant`: which of the two
recognised columns are assigned, and to what. -/
structure UpdateMap where
  setName : Option String
  setEnabled : Option Bool
deriving DecidableEq, Repr

def emptyUpdateMap : UpdateMap :=
  { setName := none, setEnabled := none }

/-- The loop over `paths` in `Storage.UpdateTenant`: "name" and "enabled"
set the corresponding map entry from the given tenant value; every other
entry is ignored. -/
def buildUpdateMap (t : TenantRow) : List String → UpdateMap → UpdateMap
  | [], m => m
  | p :: rest, m =>
    if p = "name" then buildUpdateMap t rest { m with setName := some t.name }
    else if p = "enabled" then buildUpdateMap t rest { m with setEnabled := some t.enabled }
    else buildUpdateMap t rest m

/-- The effect of executing the UPDATE with the given SET map on the
stored row with the tenant's id. -/
def applyUpdateMap (row : TenantRow) (m : UpdateMap) : TenantRow :=
  { row with name := m.setName.getD row.name,
             enabled := m.setEnabled.getD row.enabled }

/-- Model of `Storage.UpdateTenant`: with empty `paths` return nil at
once; build the SET map from `paths`; if it is empty return nil without
executing any statement; otherwise execute the UPDATE (its outcome given
by the oracle `execErr`, wrapped on failure). Returns the SET map of the
executed statement (`none` when no statement ran) and the error. -/
def storageUpdateTenant (tenant : TenantRow) (paths : List String)
    (execErr : Option String) : Option UpdateMap × Option String :=
  if paths = [] then (none, none)
  else
    let m := buildUpdateMap tenant paths emptyUpdateMap
    if m = emptyUpdateMap then (none, none)
    else
      match execErr with
      | some e => (some m, some ("failed to update tenant: " ++ e))
      | none => (some m, none)

theorem buildUpdateMap_spec (t : TenantRow) :
    ∀ (paths : List String) (m : UpdateMap),
      buildUpdateMap t paths m
        = { setName := if "name" ∈ paths then some t.name else m.setName,
            setEnabled := if "enabled" ∈ paths then some t.enabled else m.setEnabled } := by
  intro paths
  induction paths with
  | nil => intro m; simp [buildUpdateMap]
  | cons p rest ih =>
    intro m
    by_cases hn : p = "name"
    · subst hn
      simp [buildUpdateMap, ih]
    · by_cases he : p = "enabled"
      · subst he
        simp [buildUpdateMap, ih]
      · simp [buildUpdateMap, hn, he, ih]
        constructor
        · by_cases h : "name" ∈ rest <;> simp [h, Ne.symm hn]
        · by_cases h : "enabled" ∈ rest <;> simp [h, Ne.symm he]

/-- C10: `Storage.UpdateTenant` only ever sets the `name` and `enabled`
columns, from the entries of `paths` it recognises: if `paths` has no
recognised entry (in particular if it is empty) no statement is executed
and nil is returned; when a statement is executed its SET map assigns
`name` iff "name" is in `paths` and `enabled` iff "enabled" is in
`paths`, and applying it leaves the row's `id` and `created_at`
unchanged. -/
theorem storageUpdateTenant_frame (tenant : TenantRow) (paths : List String)
    (execErr : Option String) :
    (¬"name" ∈ paths → ¬"enabled" ∈ paths →
      storageUpdateTenant tenant paths execErr = (none, none)) ∧
    (∀ m, (storageUpdateTenant tenant paths execErr).1 = some m →
      m.setName = (if "name" ∈ paths then some tenant.name else none) ∧
      m.setEnabled = (if "enabled" ∈ paths then some tenant.enabled else none) ∧
      ∀ row : TenantRow,
        (applyUpdateMap row m).id = row.id ∧
        (applyUpdateMap row m).createdAt = row.createdAt) := by
  constructor
  · intro hn he
    rcases hp : paths with _ | ⟨p, rest⟩
    · simp [storageUpdateTenant]
    · have hm : buildUpdateMap tenant (p :: rest) emptyUpdateMap = emptyUpdateMap := by
        rw [← hp, buildUpdateMap_spec]
        simp [emptyUpdateMap, hn, he]
      subst hp
      simp [storageUpdateTenant, hm]
  · intro m hm
    have hsome : m = buildUpdateMap tenant paths emptyUpdateMap := by
      by_cases hp : paths = []
      · simp [storageUpdateTenant, hp] at hm
      · by_cases hz : buildUpdateMap tenant paths emptyUpdateMap = emptyUpdateMap
        · simp [storageUpdateTenant, hp, hz] at hm
        · cases execErr with
          | some e =>
            simp [storageUpdateTenant, hp, hz] at hm
            exact hm.symm
          | none =>
            simp [storageUpdateTenant, hp, hz] at hm
            exact hm.symm
    subst hsome
    rw [buildUpdateMap_spec]
    refine ⟨by simp [emptyUpdateMap], by simp [emptyUpdateMap], ?_⟩
    intro row
    exact ⟨rfl, rfl⟩

/-- C10 witness: `paths = ["nickname"]` carries no recognised column, so
no statement executes and nil is returned. -/
theorem storageUpdateTenant_frame_witness :
    storageUpdateTenant { id := "t1", name := "N", createdAt := 7, enabled := true }
        ["nickname"] none = (none, none) :=
  (storageUpdateTenant_frame
      { id := "t1", name := "N", createdAt := 7, enabled := true }
      ["nickname"] none).1 (by decide) (by decide)

end TenantService
